import Mathlib

/-!
Shallow embedding of the credential-discovery and connection-diagnosis
scripts (scripts/diagnose_neo4j.py, scripts/discover_neo4j_credentials.py,
scripts/interactive_neo4j_setup.py, scripts/test_neo4j.py).

Strings manipulated by the scripts are modelled as lists of characters so
that every operation is structurally recursive and evaluates inside the
kernel.  External collaborators (the neo4j driver and the socket layer)
are modelled as oracle functions passed to the embedded code: the embedded
definitions describe exactly what the scripts do with each possible
collaborator outcome.
-/

set_option autoImplicit false

deriving instance DecidableEq for Except

namespace DataMind

/-- Strings of the scripts, modelled as lists of characters. -/
abbrev Str := List Char

/-- A credential candidate: `(user, password, label)` tuples such as the
entries of `credential_combinations` in discover_neo4j_credentials.py. -/
structure Candidate where
  user : Str
  password : Str
  label : Str
deriving DecidableEq

/-- One per-candidate probe outcome: the record of a single attempt, as in
the data model (candidate, succeeded, optional error summary). -/
structure ProbeResult where
  candidate : Candidate
  succeeded : Bool
  error_summary : Option Str
deriving DecidableEq

/-- Outcome of the graph-client collaborator for one authenticated-session
attempt: either the session ran the no-op query and produced a status
string, or an exception with message `msg` was raised during session
creation or query execution. -/
inductive SessionOutcome where
  | ok (status : Str)
  | err (msg : Str)
deriving DecidableEq

/-- Python `s.split(sep)` for a one-character separator. -/
def splitOnChar (sep : Char) : Str → List Str
  | [] => [[]]
  | c :: rest =>
    let r := splitOnChar sep rest
    if c = sep then [] :: r
    else (c :: r.headD []) :: r.tail

/-- `str(e).split('.')[0]` from diagnose_neo4j.py line 106: the part of the
message before the first period. -/
def summarize (msg : Str) : Str :=
  (splitOnChar '.' msg).headD []

/-- `result.split('.')[0] if '.' in result else result` from
discover_neo4j_credentials.py line 69. -/
def error_type (result : Str) : Str :=
  if result.contains '.' then (splitOnChar '.' result).headD [] else result

/-- The skip test of the discovery loop (discover_neo4j_credentials.py
line 58): `if not password and description != "Empty password": continue`. -/
def skipsCandidate (c : Candidate) : Bool :=
  c.password.isEmpty && !(c.label == ("Empty password").toList)

/-- `test_neo4j_with_credentials` (discover_neo4j_credentials.py lines
15-26): returns `(True, status)` on success and `(False, str(e))` when the
collaborator raises. -/
def test_neo4j_with_credentials (orc : Str → Str → SessionOutcome)
    (user password : Str) : Bool × Str :=
  match orc user password with
  | SessionOutcome.ok status => (true, status)
  | SessionOutcome.err msg => (false, msg)

/-- The record produced by one non-skipped iteration of the discovery loop
(discover_neo4j_credentials.py lines 61-70): a success entry, or a failure
entry carrying `error_type` of the exception message. -/
def attemptResult (orc : Str → Str → SessionOutcome) (c : Candidate) : ProbeResult :=
  match test_neo4j_with_credentials orc c.user c.password with
  | (true, _) => { candidate := c, succeeded := true, error_summary := none }
  | (false, res) => { candidate := c, succeeded := false, error_summary := some (error_type res) }

/-- The discovery loop (discover_neo4j_credentials.py lines 57-72): every
candidate is visited in order; candidates with an empty password other
than the designated "Empty password" entry are skipped; every other
candidate is attempted, and the loop never stops early. -/
def discover_results (orc : Str → Str → SessionOutcome) : List Candidate → List ProbeResult
  | [] => []
  | c :: rest =>
    if skipsCandidate c then discover_results orc rest
    else attemptResult orc c :: discover_results orc rest

/-- The discovery verdict (discover_neo4j_credentials.py lines 76-96):
`successful_credentials[0]` when some attempt succeeded, else none. -/
def discover_verdict (orc : Str → Str → SessionOutcome) (cands : List Candidate) :
    Option Candidate :=
  (((discover_results orc cands).filter (fun r => r.succeeded)).head?).map
    (fun r => r.candidate)

/-- The fixed candidate list of discover_neo4j_credentials.py lines 43-53,
headed by the environment-sourced credentials. -/
def credential_combinations (current_user current_password : Str) : List Candidate :=
  [ { user := current_user, password := current_password, label := ("Current .env credentials").toList },
    { user := ("neo4j").toList, password := ("neo4j").toList, label := ("Default neo4j/neo4j").toList },
    { user := ("neo4j").toList, password := ("password").toList, label := ("Common neo4j/password").toList },
    { user := ("neo4j").toList, password := ("admin").toList, label := ("Common neo4j/admin").toList },
    { user := ("neo4j").toList, password := ("123456").toList, label := ("Common neo4j/123456").toList },
    { user := ("neo4j").toList, password := ("test").toList, label := ("Common neo4j/test").toList },
    { user := ("neo4j").toList, password := [], label := ("Empty password").toList },
    { user := ("neo4j").toList, password := ("neo4jpassword").toList, label := ("Neo4j Desktop default").toList },
    { user := ("neo4j").toList, password := ("desktop").toList, label := ("Neo4j Desktop alt").toList } ]

/-- One iteration body of the diagnose probing loop (diagnose_neo4j.py
lines 89-108): success entries carry no summary, failures carry
`summarize` of the exception message. -/
def failedProbe (orc : Str → Str → SessionOutcome) (c : Candidate) : ProbeResult :=
  match orc c.user c.password with
  | SessionOutcome.ok _ => { candidate := c, succeeded := true, error_summary := none }
  | SessionOutcome.err msg => { candidate := c, succeeded := false, error_summary := some (summarize msg) }

/-- The diagnose probing loop (diagnose_neo4j.py lines 89-108): candidates
in order; the first success returns immediately (`return True` at line
103) and becomes the verdict; failures are recorded and iteration
continues; an exhausted list yields no verdict. -/
def diagnose_probe (orc : Str → Str → SessionOutcome) :
    List Candidate → List ProbeResult × Option Candidate
  | [] => ([], none)
  | c :: rest =>
    match orc c.user c.password with
    | SessionOutcome.ok _ =>
      ([{ candidate := c, succeeded := true, error_summary := none }], some c)
    | SessionOutcome.err msg =>
      let r := diagnose_probe orc rest
      ({ candidate := c, succeeded := false, error_summary := some (summarize msg) } :: r.1, r.2)

/-- The `test_scenarios` list of diagnose_neo4j.py lines 83-87. -/
def test_scenarios (user password : Str) : List Candidate :=
  [ { user := user, password := password, label := ("Current credentials").toList },
    { user := ("neo4j").toList, password := ("neo4j").toList, label := ("Default neo4j/neo4j").toList },
    { user := ("neo4j").toList, password := ("password").toList, label := ("Default neo4j/password").toList } ]

/-- Errors of the inline URI parse of diagnose_neo4j.py lines 36-47:
an unsupported scheme is reported and the run aborted, while a ValueError
from the two-way unpack of `split(':')` or from `int(port)` is uncaught. -/
inductive ParseError where
  | unsupportedScheme
  | valueError
deriving DecidableEq

/-- The characters of the one supported scheme marker `bolt://`. -/
def boltScheme : Str := ("bolt://").toList

/-- `uri.replace('bolt://', '')` from diagnose_neo4j.py line 38: removes
every occurrence of the marker, scanning left to right. -/
def stripBolt : Str → Str
  | 'b' :: 'o' :: 'l' :: 't' :: ':' :: '/' :: '/' :: rest => stripBolt rest
  | c :: rest => c :: stripBolt rest
  | [] => []

/-- Python `int()` as applied to the port segment of a URI: defined on
non-empty all-digit strings.  (Python `int()` also tolerates signs,
surrounding whitespace and underscores; those forms never occur in the
claims settled here.) -/
def parseNatDigits (s : Str) : Option Nat :=
  if s = [] then none
  else if s.all Char.isDigit then
    some (s.foldl (fun n c => 10 * n + (c.toNat - 48)) 0)
  else none

/-- The inline endpoint parse of diagnose_neo4j.py lines 36-47: a
non-`bolt://` scheme is a hard failure; otherwise the remainder is split
on `:`; exactly two segments give `(host, int(port))`, no colon gives the
default port 7687, and any other shape (three or more segments, or a
non-numeric port) raises a ValueError. -/
def parse_uri (uri : Str) : Except ParseError (Str × Nat) :=
  if boltScheme.isPrefixOf uri then
    if ':' ∈ stripBolt uri then
      match splitOnChar ':' (stripBolt uri) with
      | [host, portStr] =>
        match parseNatDigits portStr with
        | some p => Except.ok (host, p)
        | none => Except.error ParseError.valueError
      | _ => Except.error ParseError.valueError
    else Except.ok (stripBolt uri, 7687)
  else Except.error ParseError.unsupportedScheme

/-- Outcome of `socket.create_connection` for the reachability check.  In
Python 3, `socket.error` is `OSError` and `socket.timeout` is one of its
subclasses, so the except clause of diagnose_neo4j.py lines 20-21 covers
every failure the call produces for a string host and an in-range port:
timeouts, refusals, and every other OS-level error. -/
inductive ConnectResult where
  | success
  | timeout
  | refused
  | osError
deriving DecidableEq

/-- Observable behaviour of one reachability check: the returned boolean,
whether a transport connection was established, and whether the
established connection was closed before returning. -/
structure NetCheck where
  reachable : Bool
  opened : Bool
  closed : Bool
deriving DecidableEq

/-- `test_network_connectivity` (diagnose_neo4j.py lines 15-21): returns
True exactly when `socket.create_connection` succeeds; every failure is
caught and collapsed to False.  The socket object returned on success is
discarded without a `close()` call, so the connection is left open. -/
def test_network_connectivity (r : ConnectResult) : NetCheck :=
  match r with
  | ConnectResult.success => { reachable := true, opened := true, closed := false }
  | ConnectResult.timeout => { reachable := false, opened := false, closed := false }
  | ConnectResult.refused => { reachable := false, opened := false, closed := false }
  | ConnectResult.osError => { reachable := false, opened := false, closed := false }

/-- Resource behaviour of a single probe attempt: whether a driver object
was created and whether it was closed before the attempt finished.  (The
session, where one is created, is closed by the `with` block in every
path in both scripts.) -/
structure AttemptTrace where
  succeeded : Bool
  driverOpened : Bool
  driverClosed : Bool
deriving DecidableEq

/-- Resource behaviour of one iteration of the diagnose probing loop
(diagnose_neo4j.py lines 89-108): `driver.close()` runs at line 97 on
success and at lines 107-108 in the exception handler, so the driver is
closed on both paths. -/
def diagnose_attempt (out : SessionOutcome) : AttemptTrace :=
  match out with
  | SessionOutcome.ok _ => { succeeded := true, driverOpened := true, driverClosed := true }
  | SessionOutcome.err _ => { succeeded := false, driverOpened := true, driverClosed := true }

/-- Resource behaviour of `test_neo4j_with_credentials`
(discover_neo4j_credentials.py lines 15-26): `driver.close()` runs at
line 23 on the success path only; the except clause at lines 25-26
returns without closing the driver. -/
def discover_attempt (out : SessionOutcome) : AttemptTrace :=
  match out with
  | SessionOutcome.ok _ => { succeeded := true, driverOpened := true, driverClosed := true }
  | SessionOutcome.err _ => { succeeded := false, driverOpened := true, driverClosed := false }

/-- Network activity the diagnose run can perform after parsing. -/
inductive NetEvent where
  | connectAttempt (host : Str) (port : Nat)
  | authProbe (user password : Str)
deriving DecidableEq

/-- `diagnose_neo4j` (diagnose_neo4j.py lines 23-128), stripped of
printing: parse the URI (returning False on an unsupported scheme,
propagating the ValueError of a malformed remainder), return False when
the password is empty, run the reachability check, and on reachability
probe the three scenarios with short-circuit.  The returned event list
records every network call made, in order.  The neo4j driver import is
assumed available (the ImportError arm is not modelled; no claim
concerns it). -/
def diagnose_neo4j (uri user password : Str) (net : Str → Nat → ConnectResult)
    (orc : Str → Str → SessionOutcome) : Except ParseError (Bool × List NetEvent) :=
  match parse_uri uri with
  | Except.error ParseError.unsupportedScheme => Except.ok (false, [])
  | Except.error ParseError.valueError => Except.error ParseError.valueError
  | Except.ok (host, port) =>
    if password = [] then Except.ok (false, [])
    else if (test_network_connectivity (net host port)).reachable then
      let pr := diagnose_probe orc (test_scenarios user password)
      Except.ok (pr.2.isSome,
        NetEvent.connectAttempt host port ::
          pr.1.map (fun r => NetEvent.authProbe r.candidate.user r.candidate.password))
    else Except.ok (false, [NetEvent.connectAttempt host port])

/-- The `__main__` block of diagnose_neo4j.py lines 130-132:
`sys.exit(0 if success else 1)`. -/
def diagnose_main_exit (uri user password : Str) (net : Str → Nat → ConnectResult)
    (orc : Str → Str → SessionOutcome) : Except ParseError Nat :=
  (diagnose_neo4j uri user password net orc).map (fun r => if r.1 then 0 else 1)

/-- The `__main__` block of discover_neo4j_credentials.py lines 167-176:
on a successful verdict the knowledge-graph operations
(`test_knowledge_graph_operations`, modelled by the boolean collaborator
`kg`) run and decide the exit code; otherwise the exit code is 1. -/
def discover_main_exit (orc : Str → Str → SessionOutcome) (kg : Str → Str → Bool)
    (current_user current_password : Str) : Nat :=
  match discover_verdict orc (credential_combinations current_user current_password) with
  | some c => if kg c.user c.password then 0 else 1
  | none => 1

/-- `test_neo4j_connection` (test_neo4j.py lines 15-86): False on an empty
password, else True exactly when the whole driver-session block (modelled
as a single collaborator outcome) runs without an exception. -/
def test_neo4j_connection (user password : Str) (orc : Str → Str → SessionOutcome) : Bool :=
  if password = [] then false
  else
    match orc user password with
    | SessionOutcome.ok _ => true
    | SessionOutcome.err _ => false

/-- The `__main__` block of test_neo4j.py lines 88-90. -/
def test_neo4j_main_exit (user password : Str) (orc : Str → Str → SessionOutcome) : Nat :=
  if test_neo4j_connection user password orc then 0 else 1

/-- The key of a user line in the configuration file. -/
def userKey : Str := ("NEO4J_USER=").toList

/-- The key of a password line in the configuration file. -/
def passKey : Str := ("NEO4J_PASSWORD=").toList

/-- The rewrite loop of `update_env_file` (interactive_neo4j_setup.py
lines 45-53): each line starting with a key is replaced by the fresh
key-value line; all other lines are kept; the two booleans record whether
a user line, respectively a password line, was seen. -/
def rewrite_env_lines (user password : Str) : List Str → List Str × Bool × Bool
  | [] => ([], false, false)
  | line :: rest =>
    let r := rewrite_env_lines user password rest
    if userKey.isPrefixOf line then
      ((userKey ++ user ++ ['\n']) :: r.1, true, r.2.2)
    else if passKey.isPrefixOf line then
      ((passKey ++ password ++ ['\n']) :: r.1, r.2.1, true)
    else (line :: r.1, r.2.1, r.2.2)

/-- `update_env_file` (interactive_neo4j_setup.py lines 28-66).  The
filesystem is modelled as `Option (List Str)`: `none` when no file exists
at the expected path.  A missing file returns False and writes nothing
(lines 32-34); otherwise the lines are rewritten and the missing key
lines are appended, user line first (lines 56-59). -/
def update_env_file (user password : Str) (env_file : Option (List Str)) :
    Bool × Option (List Str) :=
  match env_file with
  | none => (false, none)
  | some lines =>
    let r := rewrite_env_lines user password lines
    let afterUser := if r.2.1 then r.1 else r.1 ++ [userKey ++ user ++ ['\n']]
    let afterPass := if r.2.2 then afterUser else afterUser ++ [passKey ++ password ++ ['\n']]
    (true, some afterPass)

/-- An oracle under which every candidate authenticates. -/
def orcAllOk : Str → Str → SessionOutcome :=
  fun _ _ => SessionOutcome.ok (("success").toList)

/-- An oracle under which every candidate fails with a fixed message. -/
def orcAllErr : Str → Str → SessionOutcome :=
  fun _ _ => SessionOutcome.err (("AuthError: denied").toList)

/-- An oracle under which every candidate fails with an empty message. -/
def orcEmptyErr : Str → Str → SessionOutcome :=
  fun _ _ => SessionOutcome.err []

/-- An oracle that accepts exactly the password `neo4j`. -/
def orcSecondOnly : Str → Str → SessionOutcome :=
  fun _ password =>
    if password = ("neo4j").toList then SessionOutcome.ok (("success").toList)
    else SessionOutcome.err (("AuthError: denied").toList)

/-- First diagnose scenario used in concrete instances. -/
def cand1 : Candidate :=
  { user := ("neo4j").toList, password := ("wrongpass").toList, label := ("Current credentials").toList }

/-- Second diagnose scenario used in concrete instances. -/
def cand2 : Candidate :=
  { user := ("neo4j").toList, password := ("neo4j").toList, label := ("Default neo4j/neo4j").toList }

/-- Third diagnose scenario used in concrete instances. -/
def cand3 : Candidate :=
  { user := ("neo4j").toList, password := ("password").toList, label := ("Default neo4j/password").toList }

end DataMind

namespace DataMind

/-- The discovery loop records one `attemptResult` per non-skipped
candidate, in order, while success never stops the iteration. -/
theorem discover_results_eq (orc : Str → Str → SessionOutcome) (cands : List Candidate) :
    discover_results orc cands
      = (cands.filter (fun c => !skipsCandidate c)).map (attemptResult orc) := by
  induction cands with
  | nil => rfl
  | cons c rest ih =>
    cases h : skipsCandidate c <;>
      simp [discover_results, List.filter_cons, h, ih]

/-- A prefix of candidates that all fail contributes its failure records
and leaves the rest of the diagnose probing to the remaining list. -/
theorem diagnose_probe_fail_prefix (orc : Str → Str → SessionOutcome)
    (pre rest : List Candidate)
    (hpre : ∀ x ∈ pre, ∃ m, orc x.user x.password = SessionOutcome.err m) :
    diagnose_probe orc (pre ++ rest)
      = (pre.map (failedProbe orc) ++ (diagnose_probe orc rest).1,
         (diagnose_probe orc rest).2) := by
  induction pre with
  | nil => simp
  | cons c cs ih =>
    obtain ⟨m, hm⟩ := hpre c (List.mem_cons_self c cs)
    have ih2 := ih (fun x hx => hpre x (List.mem_cons_of_mem c hx))
    simp [diagnose_probe, hm, ih2, failedProbe]

/-- C9 (confirmed): the reachability check returns true exactly when the
transport-level connect succeeds and false on every timeout, refusal or
other OS-level failure; it is a total boolean function, so no exception
reaches the caller (the except clause covers socket.timeout and
socket.error, which is OSError in Python 3). -/
theorem reachability_never_raises (r : ConnectResult) :
    ((test_network_connectivity r).reachable = true ↔ r = ConnectResult.success)
    ∧ ((test_network_connectivity r).reachable = false ↔ r ≠ ConnectResult.success) := by
  cases r <;> simp [test_network_connectivity]

/-- C10 (confirmed): when no configuration file exists at the expected
path, the credential update returns False and the filesystem state is
unchanged. -/
theorem missing_env_file_no_write (user password : Str) :
    update_env_file user password none = (false, none) := rfl

/-- C2 (counterexample): a successful reachability check establishes a
transport connection and returns without closing it, and the discovery
helper leaves its driver unclosed on the failure path, refuting the claim
that every connection the core logic establishes is released. -/
theorem connection_release_counterexample :
    (test_network_connectivity ConnectResult.success).reachable = true
    ∧ (test_network_connectivity ConnectResult.success).opened = true
    ∧ (test_network_connectivity ConnectResult.success).closed = false
    ∧ (discover_attempt (SessionOutcome.err (("AuthError: denied").toList))).driverClosed = false := by
  decide

/-- C2 (amended): the reachability checker never closes the transport
connection it opens; the diagnose prober closes its driver on both the
success and the failure path; the discovery prober closes its driver on
success but not on failure (its session is closed by the with-block in
every path). -/
theorem connection_release :
    (∀ r, (test_network_connectivity r).closed = false)
    ∧ (∀ out, (diagnose_attempt out).driverOpened = true
        ∧ (diagnose_attempt out).driverClosed = true)
    ∧ (∀ s, (discover_attempt (SessionOutcome.ok s)).driverClosed = true)
    ∧ (∀ m, (discover_attempt (SessionOutcome.err m)).driverClosed = false) := by
  refine ⟨fun r => ?_, fun out => ?_, fun s => rfl, fun m => rfl⟩
  · cases r <;> rfl
  · cases out <;> exact ⟨rfl, rfl⟩

/-- C8 (confirmed): a URI whose scheme is not the supported bolt scheme is
a parse failure with the unsupported-scheme error, the diagnose run ends
immediately with a failed verdict, and its network-event trace is empty:
no reachability check and no authentication probe happens. -/
theorem unsupported_scheme_aborts (uri user password : Str)
    (net : Str → Nat → ConnectResult) (orc : Str → Str → SessionOutcome)
    (h : boltScheme.isPrefixOf uri = false) :
    parse_uri uri = Except.error ParseError.unsupportedScheme
    ∧ diagnose_neo4j uri user password net orc = Except.ok (false, []) := by
  have hp : parse_uri uri = Except.error ParseError.unsupportedScheme := by
    simp [parse_uri, h]
  exact ⟨hp, by simp [diagnose_neo4j, hp]⟩

/-- Witness for the unsupported-scheme claim at the concrete URI
`http://x`. -/
theorem unsupported_scheme_aborts_witness :
    parse_uri (("http://x").toList) = Except.error ParseError.unsupportedScheme
    ∧ diagnose_neo4j (("http://x").toList) (("u").toList) (("p").toList)
        (fun _ _ => ConnectResult.success) orcAllOk = Except.ok (false, []) :=
  unsupported_scheme_aborts (("http://x").toList) (("u").toList) (("p").toList)
    (fun _ _ => ConnectResult.success) orcAllOk (by decide)

end DataMind

namespace DataMind

/-- C6 (counterexample): on the supported-scheme URI `bolt://h:1:2` the
parser does not split the remainder on the last colon (which would give
host `h:1` and port `2`); the two-way unpack of `split(':')` raises a
ValueError instead. -/
theorem parse_uri_last_colon_counterexample :
    parse_uri (("bolt://h:1:2").toList) = Except.error ParseError.valueError
    ∧ ¬ parse_uri (("bolt://h:1:2").toList) = Except.ok ((("h:1").toList), 2) := by
  decide

/-- C6 (amended): for a supported-scheme URI the parser returns the whole
remainder with the default port 7687 when the remainder has no colon,
splits on the colon when the remainder has exactly one colon and a numeric
port, and fails with a ValueError when the remainder has two or more
colons. -/
theorem parse_uri_colon_behavior (uri : Str) (h : boltScheme.isPrefixOf uri = true) :
    (':' ∉ stripBolt uri → parse_uri uri = Except.ok (stripBolt uri, 7687))
    ∧ (∀ host portStr n, splitOnChar ':' (stripBolt uri) = [host, portStr]
        → parseNatDigits portStr = some n → ':' ∈ stripBolt uri
        → parse_uri uri = Except.ok (host, n))
    ∧ (∀ a b c t, splitOnChar ':' (stripBolt uri) = a :: b :: c :: t
        → ':' ∈ stripBolt uri
        → parse_uri uri = Except.error ParseError.valueError) := by
  refine ⟨fun hc => by simp [parse_uri, h, hc], ?_, ?_⟩
  · intro host portStr n hsplit hnat hc
    simp [parse_uri, h, hc, hsplit, hnat]
  · intro a b c t hsplit hc
    simp [parse_uri, h, hc, hsplit]

/-- Witness for the amended parser claim: `bolt://localhost` parses to the
default port 7687. -/
theorem parse_uri_colon_behavior_witness :
    parse_uri (("bolt://localhost").toList) = Except.ok ((("localhost").toList), 7687) :=
  ((parse_uri_colon_behavior (("bolt://localhost").toList) (by decide)).1 (by decide)).trans
    (by decide)

/-- C7 (counterexample): under an oracle that accepts the first candidate,
the discovery run reaches a successful verdict, yet with failing
knowledge-graph operations the process exits with code 1, refuting exit
code 0 on every successful verdict. -/
theorem exit_code_counterexample :
    discover_verdict orcAllOk (credential_combinations (("neo4j").toList) (("pw").toList))
      = some { user := ("neo4j").toList, password := ("pw").toList,
               label := ("Current .env credentials").toList }
    ∧ discover_main_exit orcAllOk (fun _ _ => false) (("neo4j").toList) (("pw").toList) = 1 := by
  decide

/-- C7 (amended): the diagnose and connection-test scripts exit 0 exactly
on a successful run and 1 otherwise; the discovery script exits 0 exactly
when a successful verdict is followed by successful knowledge-graph
operations, and 1 otherwise. -/
theorem exit_code_policy (uri user password : Str) (net : Str → Nat → ConnectResult)
    (orc : Str → Str → SessionOutcome) (kg : Str → Str → Bool) (cu cp : Str)
    (b : Bool) (ev : List NetEvent) :
    (diagnose_neo4j uri user password net orc = Except.ok (b, ev)
      → diagnose_main_exit uri user password net orc = Except.ok (if b then 0 else 1))
    ∧ (discover_verdict orc (credential_combinations cu cp) = none
      → discover_main_exit orc kg cu cp = 1)
    ∧ (∀ c, discover_verdict orc (credential_combinations cu cp) = some c
      → discover_main_exit orc kg cu cp = if kg c.user c.password then 0 else 1)
    ∧ test_neo4j_main_exit user password orc
        = (if test_neo4j_connection user password orc then 0 else 1) := by
  refine ⟨fun hd => ?_, fun hv => ?_, fun c hv => ?_, rfl⟩
  · simp [diagnose_main_exit, hd, Except.map]
  · simp [discover_main_exit, hv]
  · simp [discover_main_exit, hv]

/-- Witness for the amended exit-code claim: a successful verdict followed
by successful knowledge-graph operations exits 0. -/
theorem exit_code_policy_witness :
    discover_main_exit orcAllOk (fun _ _ => true) (("neo4j").toList) (("pw").toList) = 0 := by
  have h := (exit_code_policy [] [] [] (fun _ _ => ConnectResult.success) orcAllOk
      (fun _ _ => true) (("neo4j").toList) (("pw").toList) false []).2.2.1
      { user := ("neo4j").toList, password := ("pw").toList,
        label := ("Current .env credentials").toList }
      (by decide)
  simpa using h

end DataMind

namespace DataMind

/-- C1 (counterexample): under an oracle that accepts every candidate, the
first candidate of the discovery list succeeds (so the claimed short
circuit demands exactly one Probe Result), yet the discovery prober
produces nine Probe Results and probes every later candidate; the
verdict is still the first successful candidate. -/
theorem prober_short_circuit_counterexample :
    (discover_results orcAllOk (credential_combinations (("neo4j").toList) (("pw").toList))).length = 9
    ∧ ¬ (discover_results orcAllOk (credential_combinations (("neo4j").toList) (("pw").toList))).length = 1
    ∧ discover_verdict orcAllOk (credential_combinations (("neo4j").toList) (("pw").toList))
        = some { user := ("neo4j").toList, password := ("pw").toList,
                 label := ("Current .env credentials").toList } := by
  decide

/-- C1 (amended): the diagnose prober short-circuits: when every candidate
before `c` fails and `c` succeeds, it stops at `c`, marks `c` as the
verdict and produces exactly `pre.length + 1` Probe Results; the discovery
prober instead attempts every non-skipped candidate regardless of earlier
successes and takes the first successful candidate as its verdict. -/
theorem prober_short_circuit (orc : Str → Str → SessionOutcome)
    (pre : List Candidate) (c : Candidate) (post : List Candidate)
    (hpre : ∀ x ∈ pre, ∃ m, orc x.user x.password = SessionOutcome.err m)
    (hc : ∃ s, orc c.user c.password = SessionOutcome.ok s) :
    (diagnose_probe orc (pre ++ c :: post)).2 = some c
    ∧ (diagnose_probe orc (pre ++ c :: post)).1.length = pre.length + 1
    ∧ ∀ cands, (discover_results orc cands).length
        = (cands.filter (fun x => !skipsCandidate x)).length := by
  obtain ⟨s, hs⟩ := hc
  have h := diagnose_probe_fail_prefix orc pre (c :: post) hpre
  have hcp : diagnose_probe orc (c :: post)
      = ([{ candidate := c, succeeded := true, error_summary := none }], some c) := by
    simp [diagnose_probe, hs]
  refine ⟨?_, ?_, ?_⟩
  · rw [h, hcp]
  · rw [h, hcp]; simp
  · intro cands; rw [discover_results_eq]; simp

/-- Witness for the amended short-circuit claim: with the second diagnose
scenario accepting, the verdict is the second candidate and there are
exactly two Probe Results. -/
theorem prober_short_circuit_witness :
    (diagnose_probe orcSecondOnly ([cand1] ++ cand2 :: [cand3])).2 = some cand2
    ∧ (diagnose_probe orcSecondOnly ([cand1] ++ cand2 :: [cand3])).1.length = [cand1].length + 1
    ∧ ∀ cands, (discover_results orcSecondOnly cands).length
        = (cands.filter (fun x => !skipsCandidate x)).length :=
  prober_short_circuit orcSecondOnly [cand1] cand2 [cand3]
    (fun x hx => by
      have hx1 : x = cand1 := by simpa using hx
      exact hx1 ▸ ⟨("AuthError: denied").toList, by decide⟩)
    ⟨("success").toList, by decide⟩

/-- C3 (confirmed): an exception raised by the graph client during session
creation or query execution is caught at the probing boundary of both
probers: the failing candidate is recorded as a failed Probe Result
carrying the summarized message, the probers remain total functions (no
exception reaches the caller), and iteration continues with the
candidates after the failing one. -/
theorem collaborator_exception_containment (orc : Str → Str → SessionOutcome)
    (cands : List Candidate) (c : Candidate) (m : Str)
    (hmem : c ∈ cands) (hskip : skipsCandidate c = false)
    (horc : orc c.user c.password = SessionOutcome.err m)
    (pre post : List Candidate)
    (hpre : ∀ x ∈ pre, ∃ k, orc x.user x.password = SessionOutcome.err k) :
    ({ candidate := c, succeeded := false, error_summary := some (error_type m) } : ProbeResult)
        ∈ discover_results orc cands
    ∧ (discover_results orc cands).length
        = (cands.filter (fun x => !skipsCandidate x)).length
    ∧ diagnose_probe orc (pre ++ c :: post)
        = (pre.map (failedProbe orc)
            ++ ({ candidate := c, succeeded := false, error_summary := some (summarize m) }
              :: (diagnose_probe orc post).1),
           (diagnose_probe orc post).2) := by
  refine ⟨?_, ?_, ?_⟩
  · rw [discover_results_eq]
    have ha : attemptResult orc c
        = { candidate := c, succeeded := false, error_summary := some (error_type m) } := by
      simp [attemptResult, test_neo4j_with_credentials, horc]
    rw [← ha]
    exact List.mem_map_of_mem _ (List.mem_filter.mpr ⟨hmem, by simp [hskip]⟩)
  · rw [discover_results_eq]; simp
  · have h := diagnose_probe_fail_prefix orc pre (c :: post) hpre
    rw [h]
    simp [diagnose_probe, horc]

/-- Witness for the exception-containment claim at a concrete failing
candidate. -/
theorem collaborator_exception_containment_witness :
    ({ candidate := cand1, succeeded := false,
       error_summary := some (error_type (("AuthError: denied").toList)) } : ProbeResult)
        ∈ discover_results orcSecondOnly [cand1, cand2]
    ∧ (discover_results orcSecondOnly [cand1, cand2]).length
        = (([cand1, cand2]).filter (fun x => !skipsCandidate x)).length
    ∧ diagnose_probe orcSecondOnly ([] ++ cand1 :: [cand2])
        = (([] : List Candidate).map (failedProbe orcSecondOnly)
            ++ ((⟨cand1, false, some (summarize (("AuthError: denied").toList))⟩ : ProbeResult)
              :: (diagnose_probe orcSecondOnly [cand2]).1),
           (diagnose_probe orcSecondOnly [cand2]).2) :=
  collaborator_exception_containment orcSecondOnly [cand1, cand2] cand1
    (("AuthError: denied").toList) (by decide) (by decide) (by decide)
    [] [cand2] (fun x hx => nomatch hx)

/-- C4 (counterexample): with the environment password empty, the first
candidate of the discovery list has an empty password and is skipped, so
an all-fail run yields eight Probe Results for nine candidates; moreover
a failure whose exception message is empty carries an empty error
summary. -/
theorem all_fail_report_counterexample :
    (credential_combinations (("neo4j").toList) []).length = 9
    ∧ (discover_results orcAllErr (credential_combinations (("neo4j").toList) [])).length = 8
    ∧ discover_verdict orcAllErr (credential_combinations (("neo4j").toList) []) = none
    ∧ (discover_results orcEmptyErr (credential_combinations (("neo4j").toList) (("pw").toList))).get? 0
        = some { candidate := { user := ("neo4j").toList, password := ("pw").toList,
                                label := ("Current .env credentials").toList },
                 succeeded := false, error_summary := some [] } := by
  decide

/-- C4 (amended): when every candidate fails to authenticate, the
discovery prober returns verdict none and produces exactly one Probe
Result per non-skipped candidate, in order and each attempted exactly
once; every result is marked failed and carries as error summary the
exception message truncated at its first period (empty exactly when that
first segment is). -/
theorem all_fail_report (orc : Str → Str → SessionOutcome) (cands : List Candidate)
    (hfail : ∀ c ∈ cands, ∃ m, orc c.user c.password = SessionOutcome.err m) :
    discover_verdict orc cands = none
    ∧ discover_results orc cands
        = (cands.filter (fun c => !skipsCandidate c)).map (attemptResult orc)
    ∧ ∀ r ∈ discover_results orc cands, r.succeeded = false ∧ r.error_summary.isSome := by
  have heq := discover_results_eq orc cands
  have hall : ∀ r ∈ discover_results orc cands,
      r.succeeded = false ∧ r.error_summary.isSome := by
    intro r hr
    rw [heq] at hr
    obtain ⟨c, hcf, rfl⟩ := List.mem_map.mp hr
    obtain ⟨m, hm⟩ := hfail c (List.mem_filter.mp hcf).1
    simp [attemptResult, test_neo4j_with_credentials, hm]
  refine ⟨?_, heq, hall⟩
  have hnil : (discover_results orc cands).filter (fun r => r.succeeded) = [] := by
    apply List.filter_eq_nil_iff.mpr
    intro r hr
    simp [(hall r hr).1]
  simp [discover_verdict, hnil]

/-- Witness for the amended all-fail claim: an all-failing oracle over the
full candidate list yields verdict none. -/
theorem all_fail_report_witness :
    discover_verdict orcAllErr (credential_combinations (("neo4j").toList) (("pw").toList)) = none :=
  (all_fail_report orcAllErr (credential_combinations (("neo4j").toList) (("pw").toList))
    (fun _ _ => ⟨("AuthError: denied").toList, rfl⟩)).1

end DataMind

namespace DataMind

/-- Lines touched by no key are rewritten to themselves with both flags
clear. -/
theorem rewrite_env_lines_id (user password : Str) (ls : List Str)
    (h : ∀ l ∈ ls, userKey.isPrefixOf l = false ∧ passKey.isPrefixOf l = false) :
    rewrite_env_lines user password ls = (ls, false, false) := by
  induction ls with
  | nil => rfl
  | cons l ls ih =>
    obtain ⟨h1, h2⟩ := h l (List.mem_cons_self l ls)
    simp [rewrite_env_lines, h1, h2, ih (fun x hx => h x (List.mem_cons_of_mem l hx))]

/-- The rewrite loop distributes over list append, with the seen-flags
combined by disjunction. -/
theorem rewrite_env_lines_append (user password : Str) (xs ys : List Str) :
    rewrite_env_lines user password (xs ++ ys)
      = ((rewrite_env_lines user password xs).1 ++ (rewrite_env_lines user password ys).1,
         ((rewrite_env_lines user password xs).2.1 || (rewrite_env_lines user password ys).2.1),
         ((rewrite_env_lines user password xs).2.2 || (rewrite_env_lines user password ys).2.2)) := by
  induction xs with
  | nil => simp [rewrite_env_lines]
  | cons l ls ih =>
    by_cases h1 : userKey.isPrefixOf l = true
    · simp [rewrite_env_lines, h1, ih]
    · by_cases h2 : passKey.isPrefixOf l = true
      · simp [rewrite_env_lines, h1, h2, ih]
      · simp [rewrite_env_lines, h1, h2, ih]

/-- C5 (confirmed): on a file holding exactly one user line and no
password line, the update replaces the user line in place with the new
user, appends a password line with the new password at the end, and keeps
every other line unchanged in its original order. -/
theorem env_rewrite_user_append_password (user password : Str)
    (pre post : List Str) (line : Str)
    (hline : userKey.isPrefixOf line = true)
    (hpre : ∀ l ∈ pre, userKey.isPrefixOf l = false ∧ passKey.isPrefixOf l = false)
    (hpost : ∀ l ∈ post, userKey.isPrefixOf l = false ∧ passKey.isPrefixOf l = false) :
    update_env_file user password (some (pre ++ line :: post))
      = (true, some (pre ++ ((userKey ++ user ++ ['\n'])
          :: (post ++ [passKey ++ password ++ ['\n']])))) := by
  have hid_pre := rewrite_env_lines_id user password pre hpre
  have hid_post := rewrite_env_lines_id user password post hpost
  have happ := rewrite_env_lines_append user password pre (line :: post)
  have hcons : rewrite_env_lines user password (line :: post)
      = ((userKey ++ user ++ ['\n']) :: post, true, false) := by
    simp [rewrite_env_lines, hline, hid_post]
  simp [update_env_file, happ, hid_pre, hcons]

/-- Witness for the configuration rewrite claim on a concrete three-line
file. -/
theorem env_rewrite_user_append_password_witness :
    update_env_file (("new").toList) (("secret").toList)
        (some ([("A=1\n").toList] ++ (("NEO4J_USER=old\n").toList :: [("B=2\n").toList])))
      = (true, some ([("A=1\n").toList] ++ ((userKey ++ ("new").toList ++ ['\n'])
          :: ([("B=2\n").toList] ++ [passKey ++ ("secret").toList ++ ['\n']])))) :=
  env_rewrite_user_append_password (("new").toList) (("secret").toList)
    [("A=1\n").toList] [("B=2\n").toList] (("NEO4J_USER=old\n").toList)
    (by decide) (by decide) (by decide)

end DataMind
